import Mathlib

/-!
Shallow embedding of `ActionModule.run` from
`plugins/action/consul_template.py` (ansible-consul-template).

The plugin is a single sequential pipeline: create a local scratch
directory, resolve the template source (inline `content`, local `src`
resolved through `_find_needle`, or a remote `src` fetched through the
delegated `fetch` action), invoke the `consul-template` binary once,
validate its outcome, and delegate publishing to the `copy` action,
removing the scratch directory in a `finally` block.

The embedding is a pure function `run : args → Env → RunTrace`.
`args` is the task's argument `dict`, modelled as an association list of
strings.  `Env` packages every behaviour of the outside world the code
observes: results of `os.stat`, `_find_needle`, the content-temp-file
write, the delegated fetch, `DataLoader.get_real_file`, the renderer
process (exit code, stderr, whether the output file exists) and the
delegated copy.  `RunTrace` records the observable outcome (the returned
result dict, or the Python exception escaping `run`) together with the
side-effect events the claims talk about: scratch-dir creation/removal,
whether and with which argv the renderer was started, whether the fetch
action ran, and with which argument dict the copy action was invoked.

`get_bin_path('consul-template', True)` is modelled as total
(`Env.binPath`): the binary is a documented requirement of the module
and no claim concerns its absence.  Likewise `_compute_environment_string`
is modelled as the task-environment mapping `Env.taskEnvironment`.
-/

set_option autoImplicit false

namespace ConsulTemplate

/-- Python exceptions that can escape or be raised inside `run`.
`ansibleError` is `AnsibleError` (line 250) — note that it is *not* a
subclass of `AnsibleAction`, so the handler at line 282 does not catch
it.  `unboundLocal` models `UnboundLocalError` from reading a local
variable that was never assigned. -/
inductive PyExn where
  | typeError (msg : String)
  | osError (msg : String)
  | ansibleError (msg : String)
  | unboundLocal (name : String)
  | indexError (msg : String)
  deriving Repr, DecidableEq

/-- `dict.get(k, None)` on the args dict (association list, unique keys). -/
def getArg : List (String × String) → String → Option String
  | [], _ => none
  | (k', v) :: rest, k => if k' == k then some v else getArg rest k

/-- `d[k] = v` on a dict: replace the value in place, or append the key. -/
def setArg : List (String × String) → String → String → List (String × String)
  | [], k, v => [(k, v)]
  | (k', v') :: rest, k, v =>
    if k' == k then (k, v) :: rest else (k', v') :: setArg rest k v

/-- `d.pop(k, None)` on a dict (the removal part): drop the entry whose
key is `k`. -/
def popArg : List (String × String) → String → List (String × String)
  | [], _ => []
  | p :: rest, k => if p.1 == k then popArg rest k else p :: popArg rest k

/-- ASCII lowercase of one character (`str.lower()` on the ASCII
arguments the module receives). -/
def lowerChar (c : Char) : Char :=
  if 'A' ≤ c ∧ c ≤ 'Z' then Char.ofNat (c.toNat + 32) else c

/-- ASCII lowercase of a string. -/
def lowerStr (s : String) : String := String.mk (s.data.map lowerChar)

/-- `boolean(value, strict=False)` from
`ansible.module_utils.parsing.convert_bool`, restricted to the
string-or-absent values our arg model carries: truthy strings map to
`true`, everything else (non-strict) to `false`; an absent key is the
Python default `False`. -/
def parseBool : Option String → Bool
  | none => false
  | some s => ["y", "yes", "on", "1", "true", "t"].contains (lowerStr s)

/-- `stat.S_IMODE(m)`: the twelve permission bits. -/
def sIMODE (m : Nat) : Nat := m % 4096

/-- `'0%03o' % n`: a leading literal `0` then `n` in octal, zero-padded
to at least three digits. -/
def octal3 (n : Nat) : String :=
  let ds := (Nat.toDigits 8 n).asString
  "0" ++ String.mk (List.replicate (3 - ds.length) '0') ++ ds

/-- Characters after the last `/` (accumulator holds the current
component reversed). -/
def baseNameAux : List Char → List Char → List Char
  | [], acc => acc.reverse
  | c :: rest, acc =>
    if c = '/' then baseNameAux rest [] else baseNameAux rest (c :: acc)

/-- `os.path.basename` for the paths the plugin builds (no trailing
slashes arise): the component after the last `/`. -/
def baseName (s : String) : String := String.mk (baseNameAux s.data [])

/-- `%s`-interpolation of a possibly-`None` Python string. -/
def pyShowOpt : Option String → String
  | none => "None"
  | some s => s

/-- Result of the delegated `fetch` action (§6 Fetch collaborator). -/
structure FetchResult where
  failed : Bool
  msg : String
  deriving Repr, DecidableEq

/-- One entry of a copy-result `diff` list, projected to the only key
line 277 touches. -/
structure DiffEntry where
  after_header : Option String
  deriving Repr, DecidableEq

/-- Result of the delegated `copy` action (§6 PlaceFile collaborator);
`none` in a field means the key is absent from the returned dict. -/
structure CopyResult where
  changed : Option Bool := none
  failed : Option Bool := none
  skipped : Option Bool := none
  msg : Option String := none
  diff : Option (List DiffEntry) := none
  deriving Repr, DecidableEq

/-- Behaviour of the content-temp-file materialisation (lines 181-197).
`writeFails` is `f.write` raising: caught at lines 189-190, which remove
the temp file but re-raise nothing.  `setupFails` is
`mkstemp`/`fdopen`/`os.remove`/`close` raising: caught by the outer
handler at lines 195-197. -/
inductive ContentWriteBehavior where
  | ok
  | writeFails
  | setupFails (msg : String)
  deriving Repr, DecidableEq

/-- Everything the code observes from the outside world in one call. -/
structure Env where
  /-- the name `tempfile.mkdtemp` picked at line 143 -/
  tmpdir : String
  /-- `get_bin_path('consul-template', True)`; the binary is a documented
  requirement, so lookup is modelled as succeeding -/
  binPath : String
  /-- `os.stat(path).st_mode` for line 157; `none` models `OSError` -/
  statMode : String → Option Nat
  /-- `os.environ` -/
  osEnviron : List (String × String)
  /-- the task-scoped environment from `_compute_environment_string` -/
  taskEnvironment : List (String × String)
  /-- `_find_needle('templates', src)`; `.error` carries the text of the
  raised `AnsibleError` (line 177) -/
  findNeedle : String → Except String String
  /-- behaviour of the inline-content temp-file write -/
  contentWrite : ContentWriteBehavior
  /-- basename `tempfile.mkstemp` picked at line 185 -/
  contentTempName : String
  /-- basename `tempfile.mkstemp` picked at line 200 -/
  fetchTempName : String
  /-- result of the delegated `fetch` action run (line 213) -/
  fetchResult : FetchResult
  /-- `DataLoader.get_real_file`; `.error` carries the text of the raised
  `AnsibleFileNotFound` (line 225) -/
  getRealFile : String → Except String String
  /-- `p.returncode` of the renderer process -/
  rendererRC : Nat
  /-- captured stderr of the renderer process -/
  rendererStderr : String
  /-- `os.path.isfile(result_file)` after the render (line 251) -/
  resultFileExists : Bool
  /-- result of the delegated `copy` action run (line 272) -/
  copyResult : CopyResult

/-- The result dict `run` returns; `none` means the key is absent.
`srcField` is the `'src'` key set at line 275 — its value is itself a
possibly-`None` Python string, hence the nested `Option`. -/
structure ResMap where
  failed : Option Bool := none
  changed : Option Bool := none
  skipped : Option Bool := none
  msg : Option String := none
  srcField : Option (Option String) := none
  diff : Option (List DiffEntry) := none
  deriving Repr, DecidableEq

/-- How one call to `run` ends: a returned result dict, or a Python
exception propagating out of `run`. -/
inductive Outcome where
  | returned (r : ResMap)
  | raised (e : PyExn)
  deriving Repr, DecidableEq

/-- Observable trace of one call: outcome plus side-effect events.
`rendererCmd` is `some argv` iff the renderer process was started
(line 244); `copyArgs` is `some args` iff the copy action was invoked
(line 272), with the delegated task's args; `fetchInvoked` records
line 213. -/
structure RunTrace where
  outcome : Outcome
  tmpdirCreated : Bool
  tmpdirRemoved : Bool
  fetchInvoked : Bool
  rendererCmd : Option (List String)
  rendererEnv : Option (List (String × String))
  copyArgs : Option (List (String × String))
  deriving Repr, DecidableEq

/-- Trace skeleton: line 143 has already created the scratch dir. -/
def baseTrace : RunTrace :=
  { outcome := .returned {}
    tmpdirCreated := true
    tmpdirRemoved := false
    fetchInvoked := false
    rendererCmd := none
    rendererEnv := none
    copyArgs := none }

/-- Effect on the result dict of `raise AnsibleActionFail(m)` being
caught at line 282: `AnsibleActionFail.result` is
`{'failed': True, 'msg': m}` and is merged by `result.update(e.result)`. -/
def ansibleFail (r : ResMap) (m : String) : ResMap :=
  { r with failed := some true, msg := some m }

/-- `result.update(copy_result)` (line 273): keys present in the copy
result overwrite those in `result`. -/
def updateFromCopy (r : ResMap) (c : CopyResult) : ResMap :=
  { r with
    changed := match c.changed with | some b => some b | none => r.changed
    failed := match c.failed with | some b => some b | none => r.failed
    skipped := match c.skipped with | some b => some b | none => r.skipped
    msg := match c.msg with | some m => some m | none => r.msg
    diff := match c.diff with | some d => some d | none => r.diff }

/-- `os.environ.copy()` updated with the task environment
(lines 160-163), task entries taking precedence key-for-key. -/
def mergeEnv (base task : List (String × String)) : List (String × String) :=
  task.foldl (fun acc p => setArg acc p.1 p.2) base

/-- Lines 156-157, executed *before* the `try` block: when
`mode == 'preserve'`, substitute `'0%03o' % S_IMODE(os.stat(source).st_mode)`
into the args dict.  `os.stat(None)` raises `TypeError`; a failing stat
raises `OSError`.  Either exception escapes `run` uncaught. -/
def modePreserveStep (args : List (String × String)) (env : Env) :
    Except PyExn (List (String × String)) :=
  if getArg args "mode" == some "preserve" then
    match getArg args "src" with
    | none => .error (.typeError
        "stat: path should be string, bytes, os.PathLike or integer, not NoneType")
    | some s =>
      match env.statMode s with
      | none => .error (.osError ("No such file or directory: " ++ s))
      | some m => .ok (setArg args "mode" (octal3 (sIMODE m)))
  else
    .ok args

/-- One `-name=value` renderer flag, omitted for an absent value
(lines 234-241). -/
def optFlag (name : String) : Option String → List String
  | some v => [name ++ "=" ++ v]
  | none => []

/-- The renderer argv built at lines 231-242. -/
def buildCmd (bin : String) (ca ct va vt : Option String)
    (tmpSource resultFile : String) : List String :=
  [bin, "-once", "-vault-renew-token=false", "-vault-retry=false"]
    ++ optFlag "-consul-addr" ca
    ++ optFlag "-consul-token" ct
    ++ optFlag "-vault-addr" va
    ++ optFlag "-vault-token" vt
    ++ ["-template=" ++ tmpSource ++ ":" ++ resultFile]

/-- The argument keys stripped from the delegated copy task (line 261). -/
def strippedKeys : List String :=
  ["content", "vault_addr", "vault_token", "consul_addr", "consul_token", "remote_src"]

/-- Args of the delegated copy task (lines 260-264): the task's args
with the renderer/credential keys popped, then
`update(dict(src=result_file, dest=dest))`. -/
def copyTaskArgs (args : List (String × String)) (rf d : String) :
    List (String × String) :=
  setArg (setArg (strippedKeys.foldl popArg args) "src" rf) "dest" d

/-- Lines 276-277: if the merged result carries a `diff` list, rewrite
the first entry's `after_header` to the destination; on an empty list
Python raises `IndexError`. -/
def diffRewrite (r : ResMap) (d : String) : Except PyExn ResMap :=
  match r.diff with
  | none => .ok r
  | some [] => .error (.indexError "list index out of range")
  | some (_ :: rest) => .ok { r with diff := some ({ after_header := some d } :: rest) }

/-- Lines 222-280: `get_real_file`, renderer invocation, outcome
validation, and the delegated copy.  `source1` is the (rebound) local
`source`, `source_tpl` the resolved template file. -/
def renderAndCopy (env : Env) (args1 : List (String × String))
    (source1 : Option String) (source_tpl : String) (dest : Option String)
    (ca ct va vt : Option String) (fetched : Bool)
    (environment : List (String × String)) : RunTrace :=
  match env.getRealFile source_tpl with
  | .error e =>
    { baseTrace with
      fetchInvoked := fetched
      outcome := .returned (ansibleFail {}
        ("could not find src=" ++ pyShowOpt source1 ++ ", " ++ e)) }
  | .ok tmp_source =>
    let result_file := env.tmpdir ++ "/" ++ baseName source_tpl
    let cmd := buildCmd env.binPath ca ct va vt tmp_source result_file
    if env.rendererRC ≠ 0 then
      -- line 250: `raise AnsibleError(...)` — not an `AnsibleAction`, so
      -- the handler at line 282 does not catch it and it escapes `run`
      { baseTrace with
        fetchInvoked := fetched
        rendererCmd := some cmd
        rendererEnv := some environment
        outcome := .raised (.ansibleError
          ("consul-template raised an error: " ++ env.rendererStderr)) }
    else if env.resultFileExists = false then
      -- lines 251-254: soft skip, `return result`
      { baseTrace with
        fetchInvoked := fetched
        rendererCmd := some cmd
        rendererEnv := some environment
        outcome := .returned
          { msg := some "Template rendered to empty file. Skipping", skipped := some true } }
    else
      -- lines 256-277: cleanup_tmp_file, delegated copy, annotations
      let d := match dest with | some d => d | none => ""
      let cargs := copyTaskArgs args1 result_file d
      let r1 := updateFromCopy {} env.copyResult
      let r2 := { r1 with srcField := some source1 }
      match diffRewrite r2 d with
      | .error e =>
        { baseTrace with
          fetchInvoked := fetched
          rendererCmd := some cmd
          rendererEnv := some environment
          copyArgs := some cargs
          outcome := .raised e }
      | .ok r3 =>
        { baseTrace with
          fetchInvoked := fetched
          rendererCmd := some cmd
          rendererEnv := some environment
          copyArgs := some cargs
          outcome := .returned r3 }

/-- Lines 174-178: resolve a local (non-remote) `src` through
`_find_needle`, converting its `AnsibleError` to `AnsibleActionFail`. -/
def resolveNeedle (env : Env) (source : Option String) (remote_src : Bool) :
    Except String (Option String) :=
  match source with
  | some s => if remote_src then .ok (some s) else (env.findNeedle s).map some
  | none => .ok none

/-- The body of the `try` block (lines 165-280), without the outer
`finally`: validation, source-origin establishment, then
`renderAndCopy`. -/
def runTry (env : Env) (args1 : List (String × String))
    (source content dest ca ct va vt : Option String) (remote_src : Bool)
    (environment : List (String × String)) : RunTrace :=
  -- line 170: `if source is None and content is None or dest is None`
  if (source.isNone && content.isNone) || dest.isNone then
    { baseTrace with
      outcome := .returned (ansibleFail {} "src/content and dest are required") }
  else if source.isSome && content.isSome then
    { baseTrace with
      outcome := .returned (ansibleFail {}
        "ambiguous parameter set: src and content are mutually exclusive") }
  else
    match resolveNeedle env source remote_src with
    | .error m =>
      { baseTrace with outcome := .returned (ansibleFail {} m) }
    | .ok source1 =>
      if content.isSome then
        match env.contentWrite with
        | .setupFails _ =>
          -- lines 195-197 set failed/msg on the result dict, but
          -- `source_tpl` was never assigned; line 224 then raises
          -- `UnboundLocalError`, so that dict is discarded
          { baseTrace with outcome := .raised (.unboundLocal "source_tpl") }
        | _ =>
          -- `.ok` and `.writeFails` continue identically: a `f.write`
          -- failure is swallowed at lines 189-190 (temp file removed,
          -- nothing re-raised) and `source_tpl` is still assigned
          renderAndCopy env args1 source1 (env.tmpdir ++ "/" ++ env.contentTempName)
            dest ca ct va vt false environment
      else if remote_src then
        let fetch_file := env.tmpdir ++ "/" ++ env.fetchTempName
        if env.fetchResult.failed then
          -- lines 214-217: propagate the fetch failure and return
          { baseTrace with
            fetchInvoked := true
            outcome := .returned
              { failed := some true, msg := some env.fetchResult.msg } }
        else
          renderAndCopy env args1 source1 fetch_file dest ca ct va vt true environment
      else
        renderAndCopy env args1 source1
          (match source1 with | some s => s | none => "")
          dest ca ct va vt false environment

/-- `ActionModule.run` (lines 136-287).  Reads the arg locals, performs
the pre-`try` mode-preserve substitution (whose exceptions escape with
the scratch dir still on disk), then runs the `try` body; the `finally`
at lines 284-285 removes the scratch dir on every path through the
`try`. -/
def run (args : List (String × String)) (env : Env) : RunTrace :=
  let source := getArg args "src"
  let content := getArg args "content"
  let dest := getArg args "dest"
  let consul_addr := getArg args "consul_addr"
  let consul_token := getArg args "consul_token"
  let vault_addr := getArg args "vault_addr"
  let vault_token := getArg args "vault_token"
  let remote_src := parseBool (getArg args "remote_src")
  match modePreserveStep args env with
  | .error e => { baseTrace with outcome := .raised e }
  | .ok args1 =>
    let environment := mergeEnv env.osEnviron env.taskEnvironment
    let t := runTry env args1 source content dest consul_addr consul_token
      vault_addr vault_token remote_src environment
    { t with tmpdirRemoved := true }

/-! ### Association-list (dict) lemmas -/

theorem getArg_setArg_self (l : List (String × String)) (k v : String) :
    getArg (setArg l k v) k = some v := by
  induction l with
  | nil => simp [setArg, getArg]
  | cons p rest ih =>
    by_cases h : p.1 == k
    · simp [setArg, h, getArg]
    · simp [setArg, h, getArg, ih]

theorem getArg_setArg_ne (l : List (String × String)) (k v q : String) (h : q ≠ k) :
    getArg (setArg l k v) q = getArg l q := by
  have hkq : (k == q) = false := by
    simp only [beq_eq_false_iff_ne]; exact fun hk => h hk.symm
  induction l with
  | nil => simp [setArg, getArg, hkq]
  | cons p rest ih =>
    by_cases hp : (p.1 == k) = true
    · have hpq : (p.1 == q) = false := by rw [eq_of_beq hp]; exact hkq
      simp [setArg, hp, getArg, hkq, hpq]
    · simp only [Bool.not_eq_true] at hp
      simp [setArg, hp, getArg, ih]

theorem getArg_popArg_self (l : List (String × String)) (k : String) :
    getArg (popArg l k) k = none := by
  induction l with
  | nil => rfl
  | cons p rest ih =>
    by_cases h : (p.1 == k) = true
    · simp [popArg, h, ih]
    · simp only [Bool.not_eq_true] at h
      simp [popArg, h, getArg, ih]

theorem getArg_popArg_ne (l : List (String × String)) (k q : String) (h : q ≠ k) :
    getArg (popArg l k) q = getArg l q := by
  induction l with
  | nil => rfl
  | cons p rest ih =>
    by_cases hp : (p.1 == k) = true
    · have hpq : (p.1 == q) = false := by
        rw [eq_of_beq hp]
        simp only [beq_eq_false_iff_ne]; exact fun hk => h hk.symm
      simp [popArg, hp, getArg, hpq, ih]
    · simp only [Bool.not_eq_true] at hp
      simp [popArg, hp, getArg, ih]

theorem getArg_popArg_none (l : List (String × String)) (k k' : String)
    (h : getArg l k = none) : getArg (popArg l k') k = none := by
  by_cases hk : k = k'
  · subst hk; exact getArg_popArg_self l k
  · rw [getArg_popArg_ne l k' k hk]; exact h

theorem getArg_foldl_popArg_none (keys : List String) (l : List (String × String))
    (k : String) (h : getArg l k = none) : getArg (keys.foldl popArg l) k = none := by
  induction keys generalizing l with
  | nil => simpa using h
  | cons k0 rest ih => exact ih (popArg l k0) (getArg_popArg_none l k k0 h)

theorem getArg_foldl_popArg_of_mem (keys : List String) (l : List (String × String))
    (k : String) (h : k ∈ keys) : getArg (keys.foldl popArg l) k = none := by
  induction keys generalizing l with
  | nil => cases h
  | cons k0 rest ih =>
    rcases List.mem_cons.mp h with rfl | hr
    · exact getArg_foldl_popArg_none rest (popArg l k) k (getArg_popArg_self l k)
    · exact ih (popArg l k0) hr

theorem getArg_foldl_popArg_of_not_mem (keys : List String) (l : List (String × String))
    (k : String) (h : k ∉ keys) : getArg (keys.foldl popArg l) k = getArg l k := by
  induction keys generalizing l with
  | nil => rfl
  | cons k0 rest ih =>
    have h0 : k ≠ k0 := fun hk => h (hk ▸ List.mem_cons_self k0 rest)
    have hr : k ∉ rest := fun hk => h (List.mem_cons_of_mem k0 hk)
    calc getArg (rest.foldl popArg (popArg l k0)) k
        = getArg (popArg l k0) k := ih (popArg l k0) hr
      _ = getArg l k := getArg_popArg_ne l k0 k h0

theorem copyTaskArgs_stripped (l : List (String × String)) (rf d k : String)
    (hk : k ∈ strippedKeys) : getArg (copyTaskArgs l rf d) k = none := by
  have hsrc : k ≠ "src" := by rintro rfl; revert hk; decide
  have hdest : k ≠ "dest" := by rintro rfl; revert hk; decide
  unfold copyTaskArgs
  rw [getArg_setArg_ne _ _ _ _ hdest, getArg_setArg_ne _ _ _ _ hsrc]
  exact getArg_foldl_popArg_of_mem strippedKeys l k hk

theorem copyTaskArgs_src (l : List (String × String)) (rf d : String) :
    getArg (copyTaskArgs l rf d) "src" = some rf := by
  unfold copyTaskArgs
  rw [getArg_setArg_ne _ _ _ _ (by decide : "src" ≠ "dest")]
  exact getArg_setArg_self _ _ _

theorem copyTaskArgs_dest (l : List (String × String)) (rf d : String) :
    getArg (copyTaskArgs l rf d) "dest" = some d :=
  getArg_setArg_self _ _ _

theorem copyTaskArgs_other (l : List (String × String)) (rf d k : String)
    (h1 : k ∉ strippedKeys) (h2 : k ≠ "src") (h3 : k ≠ "dest") :
    getArg (copyTaskArgs l rf d) k = getArg l k := by
  unfold copyTaskArgs
  rw [getArg_setArg_ne _ _ _ _ h3, getArg_setArg_ne _ _ _ _ h2]
  exact getArg_foldl_popArg_of_not_mem strippedKeys l k h1

/-! ### String-prefix machinery for the renderer argv -/

/-- `s` begins with `p` (char-level prefix test). -/
def strStarts (s p : String) : Bool := p.data.isPrefixOf s.data

/-- Number of argv entries that are `name=`-flags. -/
def flagCount (cmd : List String) (name : String) : Nat :=
  cmd.countP (fun e => strStarts e (name ++ "="))

/-- The claim's flag discipline for one optional endpoint value: when the
value is present the exact `name=value` entry occurs and it is the only
`name=`-flag; when absent no `name=`-flag occurs at all. -/
def flagOk (cmd : List String) (name : String) : Option String → Prop
  | some v => ((name ++ "=" ++ v) ∈ cmd) ∧ flagCount cmd name = 1
  | none => flagCount cmd name = 0

theorem strStarts_concat_true (c v p : String)
    (h : p.data.isPrefixOf c.data = true) : strStarts (c ++ v) p = true := by
  unfold strStarts
  rw [String.data_append]
  exact List.isPrefixOf_iff_prefix.mpr
    (( List.isPrefixOf_iff_prefix.mp h).trans ( List.prefix_append _ _))

theorem strStarts_concat_false (c v p : String)
    (h1 : p.data.isPrefixOf c.data = false) (h2 : c.data.isPrefixOf p.data = false) :
    strStarts (c ++ v) p = false := by
  unfold strStarts
  rw [String.data_append]
  cases hp : p.data.isPrefixOf (c.data ++ v.data) with
  | false => rfl
  | true =>
    rcases List.prefix_or_prefix_of_prefix ( List.isPrefixOf_iff_prefix.mp hp)
        ( List.prefix_append c.data v.data) with h | h
    · rw [← List.isPrefixOf_iff_prefix] at h; simp [h] at h1
    · rw [← List.isPrefixOf_iff_prefix] at h; simp [h] at h2

theorem strStarts_false_of_starts (s p q : String)
    (hq : q.data.isPrefixOf p.data = true) (h : strStarts s q = false) :
    strStarts s p = false := by
  cases hp : strStarts s p with
  | false => rfl
  | true =>
    unfold strStarts at hp h
    have hqs := (( List.isPrefixOf_iff_prefix.mp hq).trans
      ( List.isPrefixOf_iff_prefix.mp hp))
    rw [← List.isPrefixOf_iff_prefix] at hqs
    simp [hqs] at h

theorem flagCount_nil (n : String) : flagCount [] n = 0 := rfl

theorem flagCount_append (l₁ l₂ : List String) (n : String) :
    flagCount (l₁ ++ l₂) n = flagCount l₁ n + flagCount l₂ n :=
  List.countP_append _ _ _

theorem flagCount_cons (a : String) (l : List String) (n : String) :
    flagCount (a :: l) n =
      flagCount l n + (if strStarts a (n ++ "=") = true then 1 else 0) :=
  List.countP_cons _ _ _

theorem flagCount_optFlag_zero (m n : String) (o : Option String)
    (h : ∀ v, strStarts (m ++ "=" ++ v) (n ++ "=") = false) :
    flagCount (optFlag m o) n = 0 := by
  cases o with
  | none => rfl
  | some v => simp [optFlag, flagCount, List.countP_cons, h v]

theorem flagCount_optFlag_self (n : String) (o : Option String)
    (h : ∀ v, strStarts (n ++ "=" ++ v) (n ++ "=") = true) :
    flagCount (optFlag n o) n = if o.isSome then 1 else 0 := by
  cases o with
  | none => rfl
  | some v => simp [optFlag, flagCount, List.countP_cons, h v]

theorem buildCmd_flags (bin : String) (ca ct va vt : Option String) (ts rf : String)
    (hbin : strStarts bin "-" = false) :
    "-once" ∈ buildCmd bin ca ct va vt ts rf ∧
    "-vault-renew-token=false" ∈ buildCmd bin ca ct va vt ts rf ∧
    "-vault-retry=false" ∈ buildCmd bin ca ct va vt ts rf ∧
    flagOk (buildCmd bin ca ct va vt ts rf) "-consul-addr" ca ∧
    flagOk (buildCmd bin ca ct va vt ts rf) "-consul-token" ct ∧
    flagOk (buildCmd bin ca ct va vt ts rf) "-vault-addr" va ∧
    flagOk (buildCmd bin ca ct va vt ts rf) "-vault-token" vt ∧
    flagCount (buildCmd bin ca ct va vt ts rf) "-template" = 1 ∧
    ("-template=" ++ ts ++ ":" ++ rf) ∈ buildCmd bin ca ct va vt ts rf := by
  have hb1 : strStarts bin "-consul-addr=" = false :=
    strStarts_false_of_starts _ _ _ (by decide) hbin
  have hb2 : strStarts bin "-consul-token=" = false :=
    strStarts_false_of_starts _ _ _ (by decide) hbin
  have hb3 : strStarts bin "-vault-addr=" = false :=
    strStarts_false_of_starts _ _ _ (by decide) hbin
  have hb4 : strStarts bin "-vault-token=" = false :=
    strStarts_false_of_starts _ _ _ (by decide) hbin
  have hb5 : strStarts bin "-template=" = false :=
    strStarts_false_of_starts _ _ _ (by decide) hbin
  have t1 : strStarts ("-template=" ++ ts ++ ":" ++ rf) "-consul-addr=" = false := by
    rw [String.append_assoc, String.append_assoc]
    exact strStarts_concat_false _ _ _ (by decide) (by decide)
  have t2 : strStarts ("-template=" ++ ts ++ ":" ++ rf) "-consul-token=" = false := by
    rw [String.append_assoc, String.append_assoc]
    exact strStarts_concat_false _ _ _ (by decide) (by decide)
  have t3 : strStarts ("-template=" ++ ts ++ ":" ++ rf) "-vault-addr=" = false := by
    rw [String.append_assoc, String.append_assoc]
    exact strStarts_concat_false _ _ _ (by decide) (by decide)
  have t4 : strStarts ("-template=" ++ ts ++ ":" ++ rf) "-vault-token=" = false := by
    rw [String.append_assoc, String.append_assoc]
    exact strStarts_concat_false _ _ _ (by decide) (by decide)
  have t5 : strStarts ("-template=" ++ ts ++ ":" ++ rf) "-template=" = true := by
    rw [String.append_assoc, String.append_assoc]
    exact strStarts_concat_true _ _ _ (by decide)
  have zself : ∀ m : String,
      (∀ v, strStarts (m ++ "=" ++ v) (m ++ "=") = true) := by
    intro m v
    exact strStarts_concat_true _ _ _ ( List.isPrefixOf_iff_prefix.mpr (List.prefix_refl _))
  have z12 : flagCount (optFlag "-consul-token" ct) "-consul-addr" = 0 :=
    flagCount_optFlag_zero _ _ _ (fun v => strStarts_concat_false _ _ _ (by decide) (by decide))
  have z13 : flagCount (optFlag "-vault-addr" va) "-consul-addr" = 0 :=
    flagCount_optFlag_zero _ _ _ (fun v => strStarts_concat_false _ _ _ (by decide) (by decide))
  have z14 : flagCount (optFlag "-vault-token" vt) "-consul-addr" = 0 :=
    flagCount_optFlag_zero _ _ _ (fun v => strStarts_concat_false _ _ _ (by decide) (by decide))
  have z21 : flagCount (optFlag "-consul-addr" ca) "-consul-token" = 0 :=
    flagCount_optFlag_zero _ _ _ (fun v => strStarts_concat_false _ _ _ (by decide) (by decide))
  have z23 : flagCount (optFlag "-vault-addr" va) "-consul-token" = 0 :=
    flagCount_optFlag_zero _ _ _ (fun v => strStarts_concat_false _ _ _ (by decide) (by decide))
  have z24 : flagCount (optFlag "-vault-token" vt) "-consul-token" = 0 :=
    flagCount_optFlag_zero _ _ _ (fun v => strStarts_concat_false _ _ _ (by decide) (by decide))
  have z31 : flagCount (optFlag "-consul-addr" ca) "-vault-addr" = 0 :=
    flagCount_optFlag_zero _ _ _ (fun v => strStarts_concat_false _ _ _ (by decide) (by decide))
  have z32 : flagCount (optFlag "-consul-token" ct) "-vault-addr" = 0 :=
    flagCount_optFlag_zero _ _ _ (fun v => strStarts_concat_false _ _ _ (by decide) (by decide))
  have z34 : flagCount (optFlag "-vault-token" vt) "-vault-addr" = 0 :=
    flagCount_optFlag_zero _ _ _ (fun v => strStarts_concat_false _ _ _ (by decide) (by decide))
  have z41 : flagCount (optFlag "-consul-addr" ca) "-vault-token" = 0 :=
    flagCount_optFlag_zero _ _ _ (fun v => strStarts_concat_false _ _ _ (by decide) (by decide))
  have z42 : flagCount (optFlag "-consul-token" ct) "-vault-token" = 0 :=
    flagCount_optFlag_zero _ _ _ (fun v => strStarts_concat_false _ _ _ (by decide) (by decide))
  have z43 : flagCount (optFlag "-vault-addr" va) "-vault-token" = 0 :=
    flagCount_optFlag_zero _ _ _ (fun v => strStarts_concat_false _ _ _ (by decide) (by decide))
  have z51 : flagCount (optFlag "-consul-addr" ca) "-template" = 0 :=
    flagCount_optFlag_zero _ _ _ (fun v => strStarts_concat_false _ _ _ (by decide) (by decide))
  have z52 : flagCount (optFlag "-consul-token" ct) "-template" = 0 :=
    flagCount_optFlag_zero _ _ _ (fun v => strStarts_concat_false _ _ _ (by decide) (by decide))
  have z53 : flagCount (optFlag "-vault-addr" va) "-template" = 0 :=
    flagCount_optFlag_zero _ _ _ (fun v => strStarts_concat_false _ _ _ (by decide) (by decide))
  have z54 : flagCount (optFlag "-vault-token" vt) "-template" = 0 :=
    flagCount_optFlag_zero _ _ _ (fun v => strStarts_concat_false _ _ _ (by decide) (by decide))
  have w1 : flagCount (optFlag "-consul-addr" ca) "-consul-addr" = if ca.isSome then 1 else 0 :=
    flagCount_optFlag_self _ _ (zself _)
  have w2 : flagCount (optFlag "-consul-token" ct) "-consul-token" = if ct.isSome then 1 else 0 :=
    flagCount_optFlag_self _ _ (zself _)
  have w3 : flagCount (optFlag "-vault-addr" va) "-vault-addr" = if va.isSome then 1 else 0 :=
    flagCount_optFlag_self _ _ (zself _)
  have w4 : flagCount (optFlag "-vault-token" vt) "-vault-token" = if vt.isSome then 1 else 0 :=
    flagCount_optFlag_self _ _ (zself _)
  refine ⟨?_, ?_, ?_, ?_, ?_, ?_, ?_, ?_, ?_⟩
  · simp [buildCmd]
  · simp [buildCmd]
  · simp [buildCmd]
  · cases ca with
    | none =>
      simp +decide [buildCmd, flagOk, flagCount_append, flagCount_cons, flagCount_nil,
        hb1, t1, z12, z13, z14]
    | some a =>
      constructor
      · simp [buildCmd, optFlag]
      · simp +decide [buildCmd, flagCount_append, flagCount_cons, flagCount_nil,
          hb1, t1, z12, z13, z14, w1]
  · cases ct with
    | none =>
      simp +decide [buildCmd, flagOk, flagCount_append, flagCount_cons, flagCount_nil,
        hb2, t2, z21, z23, z24]
    | some a =>
      constructor
      · simp [buildCmd, optFlag]
      · simp +decide [buildCmd, flagCount_append, flagCount_cons, flagCount_nil,
          hb2, t2, z21, z23, z24, w2]
  · cases va with
    | none =>
      simp +decide [buildCmd, flagOk, flagCount_append, flagCount_cons, flagCount_nil,
        hb3, t3, z31, z32, z34]
    | some a =>
      constructor
      · simp [buildCmd, optFlag]
      · simp +decide [buildCmd, flagCount_append, flagCount_cons, flagCount_nil,
          hb3, t3, z31, z32, z34, w3]
  · cases vt with
    | none =>
      simp +decide [buildCmd, flagOk, flagCount_append, flagCount_cons, flagCount_nil,
        hb4, t4, z41, z42, z43]
    | some a =>
      constructor
      · simp [buildCmd, optFlag]
      · simp +decide [buildCmd, flagCount_append, flagCount_cons, flagCount_nil,
          hb4, t4, z41, z42, z43, w4]
  · simp +decide [buildCmd, flagCount_append, flagCount_cons, flagCount_nil,
      hb5, t5, z51, z52, z53, z54]
  · simp [buildCmd]

/-! ### Inversion lemmas: which traces reach the renderer / fetch / copy -/

theorem renderAndCopy_fetchInvoked (env : Env) (args1 : List (String × String))
    (source1 : Option String) (stpl : String) (dest ca ct va vt : Option String)
    (f : Bool) (envr : List (String × String)) :
    (renderAndCopy env args1 source1 stpl dest ca ct va vt f envr).fetchInvoked = f := by
  unfold renderAndCopy
  repeat' split
  all_goals dsimp only
  repeat' split
  all_goals rfl

theorem runTry_reach_inv (env : Env) (args1 : List (String × String))
    (source content dest ca ct va vt : Option String) (remote_src : Bool)
    (environment : List (String × String))
    (hr : ((runTry env args1 source content dest ca ct va vt remote_src
        environment).rendererCmd).isSome = true ∨
      ((runTry env args1 source content dest ca ct va vt remote_src
        environment).copyArgs).isSome = true) :
    dest.isSome = true ∧
    ∃ source1 stpl fetched,
      runTry env args1 source content dest ca ct va vt remote_src environment =
        renderAndCopy env args1 source1 stpl dest ca ct va vt fetched environment := by
  unfold runTry at hr ⊢
  by_cases h1 : ((source.isNone && content.isNone) || dest.isNone) = true
  · simp [h1, baseTrace] at hr
  · simp only [Bool.not_eq_true] at h1
    have hdest : dest.isSome = true := by
      rcases dest with _ | d
      · simp at h1
      · rfl
    refine ⟨hdest, ?_⟩
    simp only [h1, Bool.false_eq_true, if_false]
    simp only [h1, Bool.false_eq_true, if_false] at hr
    by_cases h2 : (source.isSome && content.isSome) = true
    · simp [h2, baseTrace] at hr
    · simp only [Bool.not_eq_true] at h2
      simp only [h2, Bool.false_eq_true, if_false] at hr ⊢
      rcases hn : resolveNeedle env source remote_src with m | source1
      · simp [hn, baseTrace] at hr
      · simp only [hn] at hr ⊢
        by_cases hc : content.isSome = true
        · simp only [hc, if_true] at hr ⊢
          rcases hw : env.contentWrite with _ | _ | m
          · simp only [hw]
            exact ⟨source1, _, false, rfl⟩
          · simp only [hw]
            exact ⟨source1, _, false, rfl⟩
          · simp [hw, baseTrace] at hr
        · simp only [hc, Bool.false_eq_true, if_false] at hr ⊢
          by_cases hrem : remote_src = true
          · simp only [hrem, if_true] at hr ⊢
            by_cases hff : env.fetchResult.failed = true
            · simp [hff, baseTrace] at hr
            · simp only [Bool.not_eq_true] at hff
              simp only [hff, Bool.false_eq_true, if_false] at hr ⊢
              exact ⟨source1, _, true, rfl⟩
          · simp only [Bool.not_eq_true] at hrem
            simp only [hrem, Bool.false_eq_true, if_false] at hr ⊢
            exact ⟨source1, _, false, rfl⟩

theorem run_eq_of_ps (args : List (String × String)) (env : Env)
    (args1 : List (String × String)) (hps : modePreserveStep args env = .ok args1) :
    run args env =
      { runTry env args1 (getArg args "src") (getArg args "content")
          (getArg args "dest") (getArg args "consul_addr") (getArg args "consul_token")
          (getArg args "vault_addr") (getArg args "vault_token")
          (parseBool (getArg args "remote_src")) (mergeEnv env.osEnviron env.taskEnvironment)
        with tmpdirRemoved := true } := by
  unfold run
  rw [hps]

theorem run_eq_of_ps_err (args : List (String × String)) (env : Env) (e : PyExn)
    (hps : modePreserveStep args env = .error e) :
    run args env = { baseTrace with outcome := .raised e } := by
  unfold run
  rw [hps]

theorem renderAndCopy_reach (env : Env) (args1 : List (String × String))
    (source1 : Option String) (stpl : String) (dest ca ct va vt : Option String)
    (f : Bool) (envr : List (String × String))
    (h : ((renderAndCopy env args1 source1 stpl dest ca ct va vt f envr).rendererCmd).isSome = true ∨
         ((renderAndCopy env args1 source1 stpl dest ca ct va vt f envr).copyArgs).isSome = true) :
    ∃ ts, env.getRealFile stpl = .ok ts := by
  rcases hg : env.getRealFile stpl with e | ts
  · unfold renderAndCopy at h
    simp [hg, baseTrace] at h
  · exact ⟨ts, rfl⟩

theorem renderAndCopy_cmd (env : Env) (args1 : List (String × String))
    (source1 : Option String) (stpl : String) (dest ca ct va vt : Option String)
    (f : Bool) (envr : List (String × String)) (cmd : List String)
    (h : (renderAndCopy env args1 source1 stpl dest ca ct va vt f envr).rendererCmd = some cmd) :
    ∃ ts, env.getRealFile stpl = .ok ts ∧
      cmd = buildCmd env.binPath ca ct va vt ts (env.tmpdir ++ "/" ++ baseName stpl) := by
  unfold renderAndCopy at h
  rcases hg : env.getRealFile stpl with e | ts
  · simp [hg, baseTrace] at h
  · refine ⟨ts, rfl, ?_⟩
    simp only [hg] at h
    try dsimp only at h
    repeat' split at h
    all_goals simp only [Option.some.injEq] at h
    all_goals exact h.symm

theorem renderAndCopy_skip (env : Env) (args1 : List (String × String))
    (source1 : Option String) (stpl : String) (dest ca ct va vt : Option String)
    (f : Bool) (envr : List (String × String)) (ts : String)
    (hg : env.getRealFile stpl = .ok ts) (hrc : env.rendererRC = 0)
    (hout : env.resultFileExists = false) :
    renderAndCopy env args1 source1 stpl dest ca ct va vt f envr =
      { baseTrace with
        fetchInvoked := f
        rendererCmd := some (buildCmd env.binPath ca ct va vt ts
          (env.tmpdir ++ "/" ++ baseName stpl))
        rendererEnv := some envr
        outcome := .returned
          { msg := some "Template rendered to empty file. Skipping", skipped := some true } } := by
  unfold renderAndCopy
  simp [hg, hrc, hout]

theorem renderAndCopy_rcfail (env : Env) (args1 : List (String × String))
    (source1 : Option String) (stpl : String) (dest ca ct va vt : Option String)
    (f : Bool) (envr : List (String × String)) (ts : String)
    (hg : env.getRealFile stpl = .ok ts) (hrc : env.rendererRC ≠ 0) :
    renderAndCopy env args1 source1 stpl dest ca ct va vt f envr =
      { baseTrace with
        fetchInvoked := f
        rendererCmd := some (buildCmd env.binPath ca ct va vt ts
          (env.tmpdir ++ "/" ++ baseName stpl))
        rendererEnv := some envr
        outcome := .raised (.ansibleError
          ("consul-template raised an error: " ++ env.rendererStderr)) } := by
  unfold renderAndCopy
  simp [hg, hrc]

theorem renderAndCopy_copyArgs (env : Env) (args1 : List (String × String))
    (source1 : Option String) (stpl : String) (dest ca ct va vt : Option String)
    (f : Bool) (envr : List (String × String)) (cargs : List (String × String))
    (h : (renderAndCopy env args1 source1 stpl dest ca ct va vt f envr).copyArgs = some cargs) :
    cargs = copyTaskArgs args1 (env.tmpdir ++ "/" ++ baseName stpl) (dest.getD "") := by
  unfold renderAndCopy at h
  rcases hg : env.getRealFile stpl with e | ts
  · simp [hg, baseTrace] at h
  · simp only [hg] at h
    try dsimp only at h
    repeat' split at h
    all_goals simp_all [baseTrace]

theorem run_reach_inv (args : List (String × String)) (env : Env)
    (hr : (((run args env).rendererCmd).isSome = true) ∨
      (((run args env).copyArgs).isSome = true)) :
    (getArg args "dest").isSome = true ∧
    ∃ args1 source1 stpl fetched,
      modePreserveStep args env = .ok args1 ∧
      run args env =
        { renderAndCopy env args1 source1 stpl (getArg args "dest")
            (getArg args "consul_addr") (getArg args "consul_token")
            (getArg args "vault_addr") (getArg args "vault_token") fetched
            (mergeEnv env.osEnviron env.taskEnvironment)
          with tmpdirRemoved := true } := by
  rcases hps : modePreserveStep args env with e | args1
  · rw [run_eq_of_ps_err args env e hps] at hr
    simp [baseTrace] at hr
  · rw [run_eq_of_ps args env args1 hps] at hr
    dsimp only at hr
    obtain ⟨hdest, source1, stpl, fetched, heq⟩ :=
      runTry_reach_inv env args1 _ _ _ _ _ _ _ _ _ hr
    refine ⟨hdest, args1, source1, stpl, fetched, rfl, ?_⟩
    rw [run_eq_of_ps args env args1 hps, heq]

theorem runTry_fetch_failed (env : Env) (args1 : List (String × String))
    (source content dest ca ct va vt : Option String) (remote_src : Bool)
    (environment : List (String × String))
    (hff : env.fetchResult.failed = true)
    (hf : (runTry env args1 source content dest ca ct va vt remote_src
        environment).fetchInvoked = true) :
    runTry env args1 source content dest ca ct va vt remote_src environment =
      { baseTrace with
        fetchInvoked := true
        outcome := .returned
          { failed := some true, msg := some env.fetchResult.msg } } := by
  unfold runTry at hf ⊢
  by_cases h1 : ((source.isNone && content.isNone) || dest.isNone) = true
  · simp [h1, baseTrace] at hf
  · simp only [Bool.not_eq_true] at h1
    simp only [h1, Bool.false_eq_true, if_false] at hf ⊢
    by_cases h2 : (source.isSome && content.isSome) = true
    · simp [h2, baseTrace] at hf
    · simp only [Bool.not_eq_true] at h2
      simp only [h2, Bool.false_eq_true, if_false] at hf ⊢
      rcases hn : resolveNeedle env source remote_src with m | source1
      · simp [hn, baseTrace] at hf
      · simp only [hn] at hf ⊢
        by_cases hc : content.isSome = true
        · simp only [hc, if_true] at hf ⊢
          rcases hw : env.contentWrite with _ | _ | m
          · simp only [hw] at hf
            rw [renderAndCopy_fetchInvoked] at hf
            exact absurd hf (by simp)
          · simp only [hw] at hf
            rw [renderAndCopy_fetchInvoked] at hf
            exact absurd hf (by simp)
          · simp [hw, baseTrace] at hf
        · simp only [hc, Bool.false_eq_true, if_false] at hf ⊢
          by_cases hrem : remote_src = true
          · simp only [hrem, if_true] at hf ⊢
            simp [hff]
          · simp only [Bool.not_eq_true] at hrem
            simp only [hrem, Bool.false_eq_true, if_false] at hf
            rw [renderAndCopy_fetchInvoked] at hf
            exact absurd hf (by simp)

theorem run_fetch_failed (args : List (String × String)) (env : Env)
    (hff : env.fetchResult.failed = true)
    (hf : (run args env).fetchInvoked = true) :
    run args env =
      { baseTrace with
        fetchInvoked := true
        tmpdirRemoved := true
        outcome := .returned
          { failed := some true, msg := some env.fetchResult.msg } } := by
  rcases hps : modePreserveStep args env with e | args1
  · rw [run_eq_of_ps_err args env e hps] at hf
    simp [baseTrace] at hf
  · rw [run_eq_of_ps args env args1 hps] at hf ⊢
    dsimp only at hf
    rw [runTry_fetch_failed env args1 _ _ _ _ _ _ _ _ _ hff hf]

/-! ### Concrete environments and requests used by witnesses and
counterexamples -/

/-- A concrete environment in which every external collaborator succeeds. -/
def envOk : Env :=
  { tmpdir := "/tmp/ansible-local-7/work"
    binPath := "/usr/bin/consul-template"
    statMode := fun _ => some 33184
    osEnviron := [("PATH", "/usr/bin")]
    taskEnvironment := []
    findNeedle := fun s => .ok ("/play/templates/" ++ s)
    contentWrite := .ok
    contentTempName := "tmpc"
    fetchTempName := "tmpf"
    fetchResult := { failed := false, msg := "" }
    getRealFile := fun p => .ok p
    rendererRC := 0
    rendererStderr := ""
    resultFileExists := true
    copyResult := { changed := some true } }

/-- `envOk` with a renderer that exits 0 but leaves no output file. -/
def envSkip : Env := { envOk with resultFileExists := false }

/-- `envOk` with a failing delegated fetch. -/
def envFetchFail : Env :=
  { envOk with fetchResult := { failed := true, msg := "no such file" } }

/-- `envOk` with a renderer that exits 1 after writing to stderr. -/
def envRcFail : Env := { envOk with rendererRC := 1, rendererStderr := "boom" }

/-- `envOk` with `os.stat` failing on every path. -/
def envStatFail : Env := { envOk with statMode := fun _ => none }

/-- `envOk` in which `f.write` on the content temp file raises, so the
temp file is deleted and any later `get_real_file` on it fails. -/
def envWriteFail : Env :=
  { envOk with
    contentWrite := .writeFails
    getRealFile := fun _ => .error "file not found" }

/-- `envOk` in which `mkstemp` for the content temp file raises. -/
def envSetupFail : Env := { envOk with contentWrite := .setupFails "No space left on device" }

/-! ### Claim theorems -/

/-- C1: whenever the renderer process was started, exited with status 0,
and the expected output file `ScratchWorkspace/basename(source)` does not
exist, `run` returns a result with `skipped=true` and the explanatory
message, with `failed` and `changed` keys absent (hence not `true`), the
downstream copy action is never invoked (so the destination is not
written), and the scratch dir is still removed. -/
theorem C1_empty_render_skips (args : List (String × String)) (env : Env)
    (hr : ((run args env).rendererCmd).isSome = true)
    (hrc : env.rendererRC = 0) (hout : env.resultFileExists = false) :
    ∃ res, (run args env).outcome = .returned res ∧
      res.skipped = some true ∧
      res.msg = some "Template rendered to empty file. Skipping" ∧
      res.failed = none ∧ res.changed = none ∧
      (run args env).copyArgs = none ∧
      (run args env).tmpdirRemoved = true := by
  obtain ⟨hdest, args1, s1, stpl, f, hps, hrun⟩ := run_reach_inv args env (Or.inl hr)
  rw [hrun] at hr
  dsimp only at hr
  obtain ⟨ts, hg⟩ := renderAndCopy_reach env args1 s1 stpl _ _ _ _ _ f _ (Or.inl hr)
  rw [hrun, renderAndCopy_skip env args1 s1 stpl _ _ _ _ _ f _ ts hg hrc hout]
  exact ⟨_, rfl, rfl, rfl, rfl, rfl, rfl, rfl⟩

/-- Witness for C1 at a concrete local-source request. -/
theorem C1_empty_render_skips_witness :
    (((run [("src", "t.ctmpl"), ("dest", "/etc/out.ini")] envSkip).rendererCmd).isSome = true) ∧
    envSkip.rendererRC = 0 ∧ envSkip.resultFileExists = false ∧
    (∃ res, (run [("src", "t.ctmpl"), ("dest", "/etc/out.ini")] envSkip).outcome = .returned res ∧
      res.skipped = some true ∧
      res.msg = some "Template rendered to empty file. Skipping" ∧
      res.failed = none ∧ res.changed = none ∧
      (run [("src", "t.ctmpl"), ("dest", "/etc/out.ini")] envSkip).copyArgs = none ∧
      (run [("src", "t.ctmpl"), ("dest", "/etc/out.ini")] envSkip).tmpdirRemoved = true) :=
  ⟨by decide, rfl, rfl,
    C1_empty_render_skips [("src", "t.ctmpl"), ("dest", "/etc/out.ini")] envSkip
      (by decide) rfl rfl⟩

theorem renderAndCopy_tmpdirCreated (env : Env) (args1 : List (String × String))
    (source1 : Option String) (stpl : String) (dest ca ct va vt : Option String)
    (f : Bool) (envr : List (String × String)) :
    (renderAndCopy env args1 source1 stpl dest ca ct va vt f envr).tmpdirCreated = true := by
  unfold renderAndCopy
  repeat' split
  all_goals try dsimp only
  repeat' split
  all_goals rfl

theorem runTry_tmpdirCreated (env : Env) (args1 : List (String × String))
    (source content dest ca ct va vt : Option String) (remote_src : Bool)
    (environment : List (String × String)) :
    (runTry env args1 source content dest ca ct va vt remote_src
      environment).tmpdirCreated = true := by
  unfold runTry
  repeat' split
  all_goals first | rfl | apply renderAndCopy_tmpdirCreated

/-- C2 counterexample: with `mode='preserve'` and no `src`, the
`TypeError` raised at line 157 occurs before the `try`/`finally` is
entered, so the scratch directory created at line 143 is never removed —
refuting the claim that it is removed on *every* exit path. -/
theorem C2_cleanup_counterexample :
    (run [("content", "X"), ("dest", "/etc/app.ini"), ("mode", "preserve")] envOk).tmpdirCreated = true ∧
    (run [("content", "X"), ("dest", "/etc/app.ini"), ("mode", "preserve")] envOk).tmpdirRemoved = false ∧
    (run [("content", "X"), ("dest", "/etc/app.ini"), ("mode", "preserve")] envOk).outcome =
      .raised (.typeError
        "stat: path should be string, bytes, os.PathLike or integer, not NoneType") :=
  ⟨rfl, rfl, rfl⟩

/-- C2 (amended): the scratch dir is created before any other pipeline
work on every invocation, and it is removed on every exit path that
enters the main `try` block — i.e. whenever the pre-`try` mode-preserve
substitution (lines 156-157) does not raise. -/
theorem C2_cleanup (args : List (String × String)) (env : Env) :
    (run args env).tmpdirCreated = true ∧
    (∀ args1, modePreserveStep args env = .ok args1 →
      (run args env).tmpdirRemoved = true) := by
  constructor
  · rcases hps : modePreserveStep args env with e | a1
    · rw [run_eq_of_ps_err args env e hps]; rfl
    · rw [run_eq_of_ps args env a1 hps]
      dsimp only
      apply runTry_tmpdirCreated
  · intro a1 hps
    rw [run_eq_of_ps args env a1 hps]

/-- Witness for C2 at a concrete request whose mode-preserve step
succeeds trivially (no `mode` argument). -/
theorem C2_cleanup_witness :
    modePreserveStep [("src", "t.ctmpl"), ("dest", "/etc/out.ini")] envOk =
      .ok [("src", "t.ctmpl"), ("dest", "/etc/out.ini")] ∧
    (run [("src", "t.ctmpl"), ("dest", "/etc/out.ini")] envOk).tmpdirCreated = true ∧
    (run [("src", "t.ctmpl"), ("dest", "/etc/out.ini")] envOk).tmpdirRemoved = true :=
  ⟨rfl, (C2_cleanup [("src", "t.ctmpl"), ("dest", "/etc/out.ini")] envOk).1,
    (C2_cleanup [("src", "t.ctmpl"), ("dest", "/etc/out.ini")] envOk).2 _ rfl⟩

/-- C3: whenever the delegated fetch action ran and reported
`failed=true`, `run` returns immediately with `failed=true` and a `msg`
equal verbatim to the fetch result's `msg`; the renderer is never
started and the copy action never invoked. -/
theorem C3_fetch_failure_aborts (args : List (String × String)) (env : Env)
    (hf : (run args env).fetchInvoked = true)
    (hff : env.fetchResult.failed = true) :
    (run args env).outcome = .returned
      { failed := some true, msg := some env.fetchResult.msg } ∧
    (run args env).rendererCmd = none ∧
    (run args env).copyArgs = none ∧
    (run args env).tmpdirRemoved = true := by
  rw [run_fetch_failed args env hff hf]
  exact ⟨rfl, rfl, rfl, rfl⟩

/-- Witness for C3 at a concrete `remote_src=true` request. -/
theorem C3_fetch_failure_aborts_witness :
    (run [("src", "t.ctmpl"), ("dest", "/etc/out.ini"), ("remote_src", "yes")]
      envFetchFail).fetchInvoked = true ∧
    envFetchFail.fetchResult.failed = true ∧
    ((run [("src", "t.ctmpl"), ("dest", "/etc/out.ini"), ("remote_src", "yes")]
        envFetchFail).outcome = .returned
      { failed := some true, msg := some envFetchFail.fetchResult.msg } ∧
    (run [("src", "t.ctmpl"), ("dest", "/etc/out.ini"), ("remote_src", "yes")]
        envFetchFail).rendererCmd = none ∧
    (run [("src", "t.ctmpl"), ("dest", "/etc/out.ini"), ("remote_src", "yes")]
        envFetchFail).copyArgs = none ∧
    (run [("src", "t.ctmpl"), ("dest", "/etc/out.ini"), ("remote_src", "yes")]
        envFetchFail).tmpdirRemoved = true) :=
  ⟨by decide, rfl,
    C3_fetch_failure_aborts [("src", "t.ctmpl"), ("dest", "/etc/out.ini"), ("remote_src", "yes")]
      envFetchFail (by decide) rfl⟩

/-- C4 counterexample: on a non-zero renderer exit the code raises
`AnsibleError`, which is *not* an `AnsibleAction`, so the handler at
line 282 does not convert it into a structured `failed=true` result: the
exception escapes `run` and no result dict is returned at all. -/
theorem C4_counterexample :
    (run [("src", "t.ctmpl"), ("dest", "/etc/out.ini")] envRcFail).outcome =
      .raised (.ansibleError "consul-template raised an error: boom") ∧
    ∀ res, (run [("src", "t.ctmpl"), ("dest", "/etc/out.ini")] envRcFail).outcome ≠
      .returned res := by
  constructor
  · decide
  · intro res h
    rw [show (run [("src", "t.ctmpl"), ("dest", "/etc/out.ini")] envRcFail).outcome =
      .raised (.ansibleError "consul-template raised an error: boom") by decide] at h
    exact Outcome.noConfusion h

/-- C4 (amended): a non-zero renderer exit raises `AnsibleError`
carrying the captured stderr text; that error is not caught by the
orchestrator's `AnsibleAction` handler and escapes to the caller without
a structured result, but only after the `finally`-block cleanup of the
scratch workspace has run. -/
theorem C4_renderer_failure (args : List (String × String)) (env : Env)
    (hr : ((run args env).rendererCmd).isSome = true)
    (hrc : env.rendererRC ≠ 0) :
    (run args env).outcome = .raised (.ansibleError
      ("consul-template raised an error: " ++ env.rendererStderr)) ∧
    (run args env).tmpdirRemoved = true ∧
    (run args env).copyArgs = none := by
  obtain ⟨hdest, args1, s1, stpl, f, hps, hrun⟩ := run_reach_inv args env (Or.inl hr)
  rw [hrun] at hr
  dsimp only at hr
  obtain ⟨ts, hg⟩ := renderAndCopy_reach env args1 s1 stpl _ _ _ _ _ f _ (Or.inl hr)
  rw [hrun, renderAndCopy_rcfail env args1 s1 stpl _ _ _ _ _ f _ ts hg hrc]
  exact ⟨rfl, rfl, rfl⟩

/-- Witness for C4 (amended) at a concrete request. -/
theorem C4_renderer_failure_witness :
    (((run [("src", "t.ctmpl"), ("dest", "/etc/out.ini")] envRcFail).rendererCmd).isSome = true) ∧
    envRcFail.rendererRC ≠ 0 ∧
    ((run [("src", "t.ctmpl"), ("dest", "/etc/out.ini")] envRcFail).outcome =
      .raised (.ansibleError ("consul-template raised an error: " ++ envRcFail.rendererStderr)) ∧
    (run [("src", "t.ctmpl"), ("dest", "/etc/out.ini")] envRcFail).tmpdirRemoved = true ∧
    (run [("src", "t.ctmpl"), ("dest", "/etc/out.ini")] envRcFail).copyArgs = none) :=
  ⟨by decide, by decide,
    C4_renderer_failure [("src", "t.ctmpl"), ("dest", "/etc/out.ini")] envRcFail
      (by decide) (by decide)⟩

/-- C5: every renderer argv `run` constructs contains `-once`,
`-vault-renew-token=false` and `-vault-retry=false`; for each endpoint
option it contains the `name=value` flag exactly when the request field
is present (and never an empty or extra one); and it contains exactly
one `-template=` flag, of the form `tmp_source:ScratchWorkspace/basename(source_tpl)`
for the resolved source.  (`binPath` is a filesystem path, so it does
not begin with `-`.) -/
theorem C5_renderer_command (args : List (String × String)) (env : Env)
    (cmd : List String)
    (hc : (run args env).rendererCmd = some cmd)
    (hbin : strStarts env.binPath "-" = false) :
    "-once" ∈ cmd ∧ "-vault-renew-token=false" ∈ cmd ∧ "-vault-retry=false" ∈ cmd ∧
    flagOk cmd "-consul-addr" (getArg args "consul_addr") ∧
    flagOk cmd "-consul-token" (getArg args "consul_token") ∧
    flagOk cmd "-vault-addr" (getArg args "vault_addr") ∧
    flagOk cmd "-vault-token" (getArg args "vault_token") ∧
    flagCount cmd "-template" = 1 ∧
    (∃ stpl ts, env.getRealFile stpl = .ok ts ∧
      ("-template=" ++ ts ++ ":" ++ (env.tmpdir ++ "/" ++ baseName stpl)) ∈ cmd) := by
  have hr : ((run args env).rendererCmd).isSome = true := by rw [hc]; rfl
  obtain ⟨hdest, args1, s1, stpl, f, hps, hrun⟩ := run_reach_inv args env (Or.inl hr)
  rw [hrun] at hc
  dsimp only at hc
  obtain ⟨ts, hg, hcmd⟩ := renderAndCopy_cmd env args1 s1 stpl _ _ _ _ _ f _ cmd hc
  subst hcmd
  obtain ⟨p1, p2, p3, p4, p5, p6, p7, p8, p9⟩ :=
    buildCmd_flags env.binPath (getArg args "consul_addr") (getArg args "consul_token")
      (getArg args "vault_addr") (getArg args "vault_token") ts
      (env.tmpdir ++ "/" ++ baseName stpl) hbin
  exact ⟨p1, p2, p3, p4, p5, p6, p7, p8, stpl, ts, hg, p9⟩

/-- Request used to witness C5 and C8. -/
def argsW5 : List (String × String) :=
  [("src", "t.ctmpl"), ("dest", "/etc/out.ini"), ("consul_addr", "http://c:8500"),
   ("consul_token", "ctok"), ("vault_addr", "http://v:8200"), ("vault_token", "vtok")]

/-- The renderer argv `run` constructs on `argsW5` in `envOk`. -/
def cmdW5 : List String :=
  ["/usr/bin/consul-template", "-once", "-vault-renew-token=false", "-vault-retry=false",
   "-consul-addr=http://c:8500", "-consul-token=ctok", "-vault-addr=http://v:8200",
   "-vault-token=vtok", "-template=/play/templates/t.ctmpl:/tmp/ansible-local-7/work/t.ctmpl"]

/-- Witness for C5 at a concrete request carrying all four endpoint
options. -/
theorem C5_renderer_command_witness :
    (run argsW5 envOk).rendererCmd = some cmdW5 ∧
    strStarts envOk.binPath "-" = false ∧
    "-once" ∈ cmdW5 ∧
    flagOk cmdW5 "-consul-addr" (getArg argsW5 "consul_addr") ∧
    flagCount cmdW5 "-template" = 1 := by
  have h := C5_renderer_command argsW5 envOk cmdW5 (by decide) (by decide)
  exact ⟨by decide, by decide, h.1, h.2.2.2.1, h.2.2.2.2.2.2.2.1⟩

/-- C6 counterexample: with both `content` and `src` set but `dest`
absent, line 170's precedence makes the *missing-parameters* branch win,
so the failure is not the ambiguous-source error the claim requires. -/
theorem C6_counterexample :
    ∃ res, (run [("content", "X"), ("src", "t.ctmpl")] envOk).outcome = .returned res ∧
      res.failed = some true ∧
      res.msg = some "src/content and dest are required" ∧
      res.msg ≠ some "ambiguous parameter set: src and content are mutually exclusive" :=
  ⟨_, rfl, rfl, rfl, by decide⟩

/-- C6 (amended): for every request with both `content` and `src` set
*and `dest` set*, whose pre-`try` mode-preserve step does not raise,
`run` fails with the ambiguous-source configuration error, never starts
the renderer or the fetch/copy actions (so no filesystem write outside
the scratch workspace occurs), and still removes the workspace; when
`dest` is also absent the failure is the missing-parameters error
instead (see the counterexample). -/
theorem C6_ambiguous_source (args : List (String × String)) (env : Env)
    (hc : (getArg args "content").isSome = true)
    (hs : (getArg args "src").isSome = true)
    (hd : (getArg args "dest").isSome = true)
    (hm : ∃ args1, modePreserveStep args env = .ok args1) :
    (run args env).outcome = .returned
      { failed := some true,
        msg := some "ambiguous parameter set: src and content are mutually exclusive" } ∧
    (run args env).rendererCmd = none ∧
    (run args env).copyArgs = none ∧
    (run args env).fetchInvoked = false ∧
    (run args env).tmpdirRemoved = true := by
  obtain ⟨args1, hps⟩ := hm
  obtain ⟨cv, hcv⟩ := Option.isSome_iff_exists.mp hc
  obtain ⟨sv, hsv⟩ := Option.isSome_iff_exists.mp hs
  obtain ⟨dv, hdv⟩ := Option.isSome_iff_exists.mp hd
  rw [run_eq_of_ps args env args1 hps]
  unfold runTry
  rw [hcv, hsv, hdv]
  simp [baseTrace, ansibleFail]

/-- Witness for C6 (amended) at a concrete request. -/
theorem C6_ambiguous_source_witness :
    (getArg [("content", "X"), ("src", "t.ctmpl"), ("dest", "/d")] "content").isSome = true ∧
    (getArg [("content", "X"), ("src", "t.ctmpl"), ("dest", "/d")] "src").isSome = true ∧
    (getArg [("content", "X"), ("src", "t.ctmpl"), ("dest", "/d")] "dest").isSome = true ∧
    ((run [("content", "X"), ("src", "t.ctmpl"), ("dest", "/d")] envOk).outcome = .returned
      { failed := some true,
        msg := some "ambiguous parameter set: src and content are mutually exclusive" } ∧
    (run [("content", "X"), ("src", "t.ctmpl"), ("dest", "/d")] envOk).rendererCmd = none ∧
    (run [("content", "X"), ("src", "t.ctmpl"), ("dest", "/d")] envOk).copyArgs = none ∧
    (run [("content", "X"), ("src", "t.ctmpl"), ("dest", "/d")] envOk).fetchInvoked = false ∧
    (run [("content", "X"), ("src", "t.ctmpl"), ("dest", "/d")] envOk).tmpdirRemoved = true) :=
  ⟨rfl, rfl, rfl,
    C6_ambiguous_source [("content", "X"), ("src", "t.ctmpl"), ("dest", "/d")] envOk
      rfl rfl rfl ⟨_, rfl⟩⟩

/-- C7 counterexample: with `src` set, `mode='preserve'`, `dest` absent
and a failing local stat, the `OSError` from line 157 escapes `run`
before the parameter validation, so the missing-parameters failure the
claim requires is never produced. -/
theorem C7_counterexample :
    (run [("src", "t.ctmpl"), ("mode", "preserve")] envStatFail).outcome =
      .raised (.osError "No such file or directory: t.ctmpl") ∧
    ∀ res, (run [("src", "t.ctmpl"), ("mode", "preserve")] envStatFail).outcome ≠
      .returned res := by
  constructor
  · rfl
  · intro res h
    rw [show (run [("src", "t.ctmpl"), ("mode", "preserve")] envStatFail).outcome =
      .raised (.osError "No such file or directory: t.ctmpl") from rfl] at h
    exact Outcome.noConfusion h

/-- C7 (amended): for every request in which no source is given (neither
`src` nor `content`) or `dest` is not given, and whose pre-`try`
mode-preserve step does not raise (see the counterexample), `run` fails
with the missing-parameters configuration error before the renderer, the
fetch, or the copy action is invoked. -/
theorem C7_missing_params (args : List (String × String)) (env : Env)
    (hcond : (((getArg args "src").isNone && (getArg args "content").isNone) ||
      (getArg args "dest").isNone) = true)
    (hm : ∃ args1, modePreserveStep args env = .ok args1) :
    (run args env).outcome = .returned
      { failed := some true, msg := some "src/content and dest are required" } ∧
    (run args env).rendererCmd = none ∧
    (run args env).fetchInvoked = false ∧
    (run args env).copyArgs = none ∧
    (run args env).tmpdirRemoved = true := by
  obtain ⟨args1, hps⟩ := hm
  rw [run_eq_of_ps args env args1 hps]
  unfold runTry
  rw [hcond]
  simp [baseTrace, ansibleFail]

/-- Witness for C7 (amended): a request with no arguments at all. -/
theorem C7_missing_params_witness :
    ((((getArg ([] : List (String × String)) "src").isNone &&
        (getArg ([] : List (String × String)) "content").isNone) ||
      (getArg ([] : List (String × String)) "dest").isNone) = true) ∧
    ((run [] envOk).outcome = .returned
      { failed := some true, msg := some "src/content and dest are required" } ∧
    (run [] envOk).rendererCmd = none ∧
    (run [] envOk).fetchInvoked = false ∧
    (run [] envOk).copyArgs = none ∧
    (run [] envOk).tmpdirRemoved = true) :=
  ⟨rfl, C7_missing_params [] envOk rfl ⟨_, rfl⟩⟩

/-- C8: whenever the delegated copy task is built, its argument dict is
the task's args with `content`, `vault_addr`, `vault_token`,
`consul_addr`, `consul_token` and `remote_src` all removed, `src`
replaced by the rendered scratch file and `dest` set to the request's
destination; every other (generic path/attribute) argument is passed
through unchanged. -/
theorem C8_copy_args_stripped (args : List (String × String)) (env : Env)
    (cargs : List (String × String))
    (hc : (run args env).copyArgs = some cargs) :
    ∃ args1 rf d,
      modePreserveStep args env = .ok args1 ∧
      getArg args "dest" = some d ∧
      (∀ k, k ∈ strippedKeys → getArg cargs k = none) ∧
      getArg cargs "src" = some rf ∧
      getArg cargs "dest" = some d ∧
      (∀ k, k ∉ strippedKeys → k ≠ "src" → k ≠ "dest" →
        getArg cargs k = getArg args1 k) := by
  have hr : ((run args env).copyArgs).isSome = true := by rw [hc]; rfl
  obtain ⟨hdest, args1, s1, stpl, f, hps, hrun⟩ := run_reach_inv args env (Or.inr hr)
  obtain ⟨dv, hdv⟩ := Option.isSome_iff_exists.mp hdest
  rw [hrun] at hc
  dsimp only at hc
  have hcargs := renderAndCopy_copyArgs env args1 s1 stpl _ _ _ _ _ f _ cargs hc
  simp only [hdv, Option.getD_some] at hcargs
  refine ⟨args1, env.tmpdir ++ "/" ++ baseName stpl, dv, hps, hdv, ?_, ?_, ?_, ?_⟩
  · intro k hk
    rw [hcargs]
    exact copyTaskArgs_stripped args1 _ _ k hk
  · rw [hcargs]
    exact copyTaskArgs_src args1 _ _
  · rw [hcargs]
    exact copyTaskArgs_dest args1 _ _
  · intro k h1 h2 h3
    rw [hcargs]
    exact copyTaskArgs_other args1 _ _ k h1 h2 h3

/-- Witness for C8 at a concrete request that carries a credential
argument and two generic attribute arguments. -/
theorem C8_copy_args_stripped_witness :
    (run [("src", "t.ctmpl"), ("dest", "/etc/out.ini"), ("mode", "0644"),
        ("owner", "root"), ("vault_addr", "http://v:8200")] envOk).copyArgs =
      some [("src", "/tmp/ansible-local-7/work/t.ctmpl"), ("dest", "/etc/out.ini"),
        ("mode", "0644"), ("owner", "root")] ∧
    (∃ args1 rf d,
      modePreserveStep [("src", "t.ctmpl"), ("dest", "/etc/out.ini"), ("mode", "0644"),
        ("owner", "root"), ("vault_addr", "http://v:8200")] envOk = .ok args1 ∧
      getArg [("src", "t.ctmpl"), ("dest", "/etc/out.ini"), ("mode", "0644"),
        ("owner", "root"), ("vault_addr", "http://v:8200")] "dest" = some d ∧
      (∀ k, k ∈ strippedKeys →
        getArg [("src", "/tmp/ansible-local-7/work/t.ctmpl"), ("dest", "/etc/out.ini"),
          ("mode", "0644"), ("owner", "root")] k = none) ∧
      getArg [("src", "/tmp/ansible-local-7/work/t.ctmpl"), ("dest", "/etc/out.ini"),
        ("mode", "0644"), ("owner", "root")] "src" = some rf ∧
      getArg [("src", "/tmp/ansible-local-7/work/t.ctmpl"), ("dest", "/etc/out.ini"),
        ("mode", "0644"), ("owner", "root")] "dest" = some d ∧
      (∀ k, k ∉ strippedKeys → k ≠ "src" → k ≠ "dest" →
        getArg [("src", "/tmp/ansible-local-7/work/t.ctmpl"), ("dest", "/etc/out.ini"),
          ("mode", "0644"), ("owner", "root")] k = getArg args1 k)) :=
  ⟨by decide,
    C8_copy_args_stripped [("src", "t.ctmpl"), ("dest", "/etc/out.ini"), ("mode", "0644"),
      ("owner", "root"), ("vault_addr", "http://v:8200")] envOk
      [("src", "/tmp/ansible-local-7/work/t.ctmpl"), ("dest", "/etc/out.ini"),
        ("mode", "0644"), ("owner", "root")] (by decide)⟩

/-- C9 (code bug): when `f.write` on the content temp file raises, lines
189-190 delete the temp file and swallow the exception entirely — no
`failed`/`msg` with the I/O error is produced; the pipeline continues
with the deleted path and later fails with the unrelated
`could not find src=None` message.  When instead `mkstemp` raises,
lines 196-197 do set `failed`/`msg`, but `source_tpl` was never
assigned, so line 224 raises `UnboundLocalError` and the structured
result is discarded.  Either way the claimed non-fatal `failed=true`
result carrying the I/O error message is never returned. -/
theorem C9_write_error_swallowed :
    ((run [("content", "X"), ("dest", "/etc/out.ini")] envWriteFail).outcome =
      .returned
        { failed := some true, msg := some "could not find src=None, file not found" } ∧
    (run [("content", "X"), ("dest", "/etc/out.ini")] envWriteFail).rendererCmd = none ∧
    (run [("content", "X"), ("dest", "/etc/out.ini")] envWriteFail).tmpdirRemoved = true) ∧
    ((run [("content", "X"), ("dest", "/etc/out.ini")] envSetupFail).outcome =
      .raised (.unboundLocal "source_tpl") ∧
    (run [("content", "X"), ("dest", "/etc/out.ini")] envSetupFail).tmpdirRemoved = true) :=
  ⟨⟨rfl, rfl, rfl⟩, ⟨rfl, rfl⟩⟩

/-- C10: for every request with `mode='preserve'` and no `src` set
(inline-content origin), and in every environment, line 157 calls
`os.stat(None)`, whose `TypeError` escapes `run` before the parameter
validation and outside the `try`/`finally`: no structured failed result
is returned, no pipeline stage runs, and the scratch directory is never
removed. -/
theorem C10_mode_preserve_without_src (args : List (String × String)) (env : Env)
    (hm : getArg args "mode" = some "preserve")
    (hs : getArg args "src" = none) :
    run args env =
      { outcome := .raised (.typeError
          "stat: path should be string, bytes, os.PathLike or integer, not NoneType")
        tmpdirCreated := true
        tmpdirRemoved := false
        fetchInvoked := false
        rendererCmd := none
        rendererEnv := none
        copyArgs := none } := by
  have hps : modePreserveStep args env = .error (.typeError
      "stat: path should be string, bytes, os.PathLike or integer, not NoneType") := by
    unfold modePreserveStep
    rw [hm, hs]
    rfl
  rw [run_eq_of_ps_err args env _ hps]
  rfl

/-- Witness for C10 at a concrete inline-content request with
`mode='preserve'`. -/
theorem C10_mode_preserve_without_src_witness :
    getArg [("content", "X"), ("dest", "/etc/app.ini"), ("mode", "preserve")] "mode" =
      some "preserve" ∧
    getArg [("content", "X"), ("dest", "/etc/app.ini"), ("mode", "preserve")] "src" = none ∧
    run [("content", "X"), ("dest", "/etc/app.ini"), ("mode", "preserve")] envOk =
      { outcome := .raised (.typeError
          "stat: path should be string, bytes, os.PathLike or integer, not NoneType")
        tmpdirCreated := true
        tmpdirRemoved := false
        fetchInvoked := false
        rendererCmd := none
        rendererEnv := none
        copyArgs := none } :=
  ⟨rfl, rfl,
    C10_mode_preserve_without_src
      [("content", "X"), ("dest", "/etc/app.ini"), ("mode", "preserve")] envOk rfl rfl⟩

end ConsulTemplate
